import Mathlib

/-!
Shallow embedding of `src/chat_forwarder.py` (New Horizons Chat Forwarder):
the config store (`load_config` / `save_config`), the startup prompt loop
(`prompt_for_webhook`), and the `/webhook` request handler (`forwarder`).

The on-disk config file is modelled at the level of what the Python file
operations observe: the file may be absent (`os.path.exists` is false),
present but unreadable (`open` raises `OSError`), present but not valid
JSON (`json.load` raises `json.JSONDecodeError`, a `ValueError` subclass),
or present and parsed to a JSON value.  The outbound `requests.post` call
is modelled by its outcome: an HTTP response with a status code and reason
phrase, or a transport-level exception (connection error / timeout) whose
stringification is carried as a message.  `datetime.now()` is modelled by
passing the local hour and minute explicitly.
-/

namespace ChatForwarder

/-- JSON values as produced by Python's `json.load`. -/
inductive Json where
  | null
  | bool (b : Bool)
  | num (n : Int)
  | str (s : String)
  | arr (xs : List Json)
  | obj (kvs : List (String × Json))

/-- Python exceptions that can escape the functions modelled here. -/
inductive PyExc where
  | osError
  | attributeError
deriving DecidableEq

/-- States of the on-disk config file, as observed by `load_config`. -/
inductive FileState where
  | absent
  | unreadable
  | parseError
  | value (j : Json)

/-- The source constant `CONFIG_FILE = "config.json"`. -/
def CONFIG_FILE : String := "config.json"

/-- The source constant `WEBHOOK_PREFIX = "https://discord.com/api/webhooks/"`. -/
def WEBHOOK_PREFIX : String := "https://discord.com/api/webhooks/"

/-- Python `s.startswith(pre)`: `pre` is a prefix of `s` (character-wise). -/
def py_startswith (s pre : String) : Bool :=
  pre.data.isPrefixOf s.data

/-- Python `s.strip()`: drop leading and trailing whitespace
    (modelled over the ASCII whitespace characters). -/
def py_strip (s : String) : String :=
  String.mk (((s.data.dropWhile Char.isWhitespace).reverse.dropWhile Char.isWhitespace).reverse)

/-- Python dict lookup `d.get(k, default)` on a dict built by `json.load`
    from a JSON object: with a repeated key the last occurrence wins. -/
def dict_get (kvs : List (String × Json)) (k : String) (dflt : Json) : Json :=
  match kvs.reverse.find? (fun p => p.1 == k) with
  | some p => p.2
  | none => dflt

/-- `load_config` (src lines 45-53).  Returns the Python value produced,
    or the uncaught exception.  The `except (ValueError, json.JSONDecodeError)`
    clause swallows only JSON parse failures: an `OSError` from `open` on an
    existing-but-unreadable file propagates, and `data.get` on a non-dict
    parse result raises an uncaught `AttributeError`. -/
def load_config (fs : FileState) : Except PyExc Json :=
  match fs with
  | .absent => .ok (Json.str "")
  | .unreadable => .error PyExc.osError
  | .parseError => .ok (Json.str "")
  | .value (Json.obj kvs) => .ok (dict_get kvs "discord_webhook_url" (Json.str ""))
  | .value _ => .error PyExc.attributeError

/-- `save_config` (src lines 56-58): overwrites the config file with the
    JSON object holding the single key.  The written text parses back to
    exactly this object, so the resulting file state carries it directly. -/
def save_config (url : String) : FileState :=
  FileState.value (Json.obj [("discord_webhook_url", Json.str url)])

/-- `prompt_for_webhook` (src lines 61-72), with stdin modelled as the list
    of lines `input()` will return; `none` models `input()` raising at
    end-of-input.  Returns the accepted URL together with the file state
    written by the `save_config` call made just before returning. -/
def prompt_for_webhook : List String → Option (String × FileState)
  | [] => none
  | i :: rest =>
    let url := py_strip i
    if py_startswith url WEBHOOK_PREFIX then some (url, save_config url)
    else prompt_for_webhook rest

/-- Python `"%02d"`-style two-digit zero padding used by `strftime` for
    `%H` and `%M`. -/
def pad2 (n : Nat) : String :=
  if n < 10 then "0" ++ toString n else toString n

/-- `datetime.now().strftime("%H:%M")` for a local time of `hr` hours and
    `mi` minutes. -/
def strftime_HM (hr mi : Nat) : String :=
  pad2 hr ++ ":" ++ pad2 mi

/-- Outcome of the single `requests.post` call: an HTTP response with its
    status code and reason phrase, or a transport error (connection
    failure, timeout) whose `str(e)` is `msg`. -/
inductive PostOutcome where
  | response (code : Nat) (reason : String)
  | transportError (msg : String)

/-- An outbound POST attempt: target URL and JSON body (string fields). -/
structure Post where
  url : String
  body : List (String × String)

/-- What `str(e)` yields for the `requests.exceptions.HTTPError` raised by
    `resp.raise_for_status()`:
    `"<code> Client Error: <reason> for url: <url>"` for 4xx and
    `"<code> Server Error: <reason> for url: <url>"` for 5xx. -/
def raise_for_status_msg (code : Nat) (reason url : String) : String :=
  toString code ++ (if code < 500 then " Client Error: " else " Server Error: ")
    ++ reason ++ " for url: " ++ url

/-- Result of one handler invocation: the value returned (or the exception
    propagated), the outbound POST attempts made, and the config file state
    afterwards. -/
structure HandlerOutcome where
  result : Except PyExc (List (String × String))
  posts : List Post
  fileAfter : FileState

/-- The `/webhook` handler `forwarder` (src lines 78-92).  `resp.raise_for_status()`
    raises exactly when the status code is in 400..599; the surrounding
    `except Exception` also catches transport errors from `requests.post`
    itself.  Exceptions escaping `load_config`, and the `AttributeError`
    from `.startswith` on a non-string config value, are not caught. -/
def forwarder (fs : FileState) (sender message : String) (hr mi : Nat)
    (net : PostOutcome) : HandlerOutcome :=
  match load_config fs with
  | .error e => ⟨.error e, [], fs⟩
  | .ok (Json.str url) =>
    if ¬ py_startswith url WEBHOOK_PREFIX then
      ⟨.ok [("status", "error"), ("detail", "Discord webhook not configured correctly.")], [], fs⟩
    else
      let content := strftime_HM hr mi ++ " [**" ++ sender ++ "**]: `" ++ message ++ "`"
      let post : Post := ⟨url, [("content", content)]⟩
      match net with
      | .response code reason =>
        if 400 ≤ code ∧ code < 600 then
          ⟨.ok [("status", "error"), ("detail", raise_for_status_msg code reason url)], [post], fs⟩
        else
          ⟨.ok [("status", "forwarded")], [post], fs⟩
      | .transportError msg =>
        ⟨.ok [("status", "error"), ("detail", msg)], [post], fs⟩
  | .ok _ => ⟨.error PyExc.attributeError, [], fs⟩

/-! ## Theorems -/

/-- C5: for every string `url` that starts with the webhook prefix, calling
    `save_config url` and then `load_config` returns exactly `url`. -/
theorem save_load_roundtrip (url : String)
    (hpre : py_startswith url WEBHOOK_PREFIX = true) :
    load_config (save_config url) = Except.ok (Json.str url) := rfl

/-- Witness for C5 at a concrete accepted URL. -/
theorem save_load_roundtrip_witness :
    load_config (save_config "https://discord.com/api/webhooks/123/abc") =
      Except.ok (Json.str "https://discord.com/api/webhooks/123/abc") :=
  save_load_roundtrip "https://discord.com/api/webhooks/123/abc" (by decide)

/-- C3 counterexample: `load_config` is not total over all on-disk file
    states.  An existing but unreadable file makes it raise the `OSError`
    from `open` (only `ValueError`/`JSONDecodeError` are caught), and a
    file whose contents parse to a non-object JSON value (here the valid
    JSON text `[]`) makes `data.get` raise an uncaught `AttributeError`. -/
theorem load_config_not_total :
    load_config FileState.unreadable = Except.error PyExc.osError ∧
    load_config (FileState.value (Json.arr [])) = Except.error PyExc.attributeError :=
  ⟨rfl, rfl⟩

/-- C3 (amended): `load_config` returns the empty string when the file is
    absent or its contents fail JSON parsing; but when the file exists and
    is unreadable it raises the `OSError`, and when the file parses to a
    non-object JSON value it raises an `AttributeError`; on a JSON object
    it returns the value under "discord_webhook_url" (default `""`). -/
theorem load_config_characterization :
    load_config FileState.absent = Except.ok (Json.str "") ∧
    load_config FileState.parseError = Except.ok (Json.str "") ∧
    load_config FileState.unreadable = Except.error PyExc.osError ∧
    (∀ kvs, load_config (FileState.value (Json.obj kvs)) =
      Except.ok (dict_get kvs "discord_webhook_url" (Json.str ""))) ∧
    (∀ j, (∀ kvs, j ≠ Json.obj kvs) →
      load_config (FileState.value j) = Except.error PyExc.attributeError) := by
  refine ⟨rfl, rfl, rfl, fun kvs => rfl, fun j hj => ?_⟩
  cases j with
  | null => rfl
  | bool b => rfl
  | num n => rfl
  | str s => rfl
  | arr xs => rfl
  | obj kvs => exact absurd rfl (hj kvs)

/-- Witness for C3's amended claim at a concrete non-object JSON value. -/
theorem load_config_characterization_witness :
    load_config (FileState.value Json.null) = Except.error PyExc.attributeError :=
  load_config_characterization.2.2.2.2 Json.null (fun kvs h => Json.noConfusion h)

/-- C7 counterexample: in the not-configured case the handler's detail
    string is "Discord webhook not configured correctly.", which is not
    the claimed exact string "webhook not configured correctly". -/
theorem not_configured_detail_differs :
    (forwarder FileState.absent "Alice" "Hello" 14 7 (PostOutcome.response 200 "OK")).result =
      Except.ok [("status", "error"), ("detail", "Discord webhook not configured correctly.")] ∧
    ("Discord webhook not configured correctly." : String) ≠ "webhook not configured correctly" :=
  ⟨rfl, by decide⟩

/-- C7 (amended): in the not-configured case (stored URL fails the prefix
    check), the detail string of the handler's error response is exactly
    "Discord webhook not configured correctly.". -/
theorem forwarder_not_configured_detail
    (fs : FileState) (url sender message : String) (hr mi : Nat) (net : PostOutcome)
    (hload : load_config fs = Except.ok (Json.str url))
    (hpre : py_startswith url WEBHOOK_PREFIX = false) :
    (forwarder fs sender message hr mi net).result =
      Except.ok [("status", "error"), ("detail", "Discord webhook not configured correctly.")] := by
  unfold forwarder
  rw [hload]
  simp [hpre]

/-- Witness for C7's amended claim at a concrete file state. -/
theorem forwarder_not_configured_detail_witness :
    (forwarder FileState.parseError "Alice" "Hello" 9 5 (PostOutcome.transportError "timeout")).result =
      Except.ok [("status", "error"), ("detail", "Discord webhook not configured correctly.")] :=
  forwarder_not_configured_detail FileState.parseError "" "Alice" "Hello" 9 5
    (PostOutcome.transportError "timeout") rfl rfl

/-- C2: whenever the stored configuration value is a string that does not
    start with the webhook prefix, the handler returns the status-"error"
    object, makes no outbound POST, and leaves the file unchanged —
    whatever the network environment would have answered. -/
theorem forwarder_invalid_config_no_post
    (fs : FileState) (url sender message : String) (hr mi : Nat) (net : PostOutcome)
    (hload : load_config fs = Except.ok (Json.str url))
    (hpre : py_startswith url WEBHOOK_PREFIX = false) :
    forwarder fs sender message hr mi net =
      ⟨Except.ok [("status", "error"), ("detail", "Discord webhook not configured correctly.")],
       [], fs⟩ := by
  unfold forwarder
  rw [hload]
  simp [hpre]

/-- Witness for C2 at the absent file (stored value is the empty string). -/
theorem forwarder_invalid_config_no_post_witness :
    forwarder FileState.absent "Alice" "Hello" 14 7 (PostOutcome.response 200 "OK") =
      ⟨Except.ok [("status", "error"), ("detail", "Discord webhook not configured correctly.")],
       [], FileState.absent⟩ :=
  forwarder_invalid_config_no_post FileState.absent "" "Alice" "Hello" 14 7
    (PostOutcome.response 200 "OK") rfl rfl

/-- C1: with a stored string URL passing the prefix check and a 2xx
    response to the outbound POST, the handler makes exactly one POST whose
    JSON body is the content string "<HH:MM> [**<sender>**]: `<message>`"
    (two-digit zero-padded hour and minute) and returns the
    status-"forwarded" object; the hour and minute fields are each exactly
    two characters. -/
theorem forwarder_success_format
    (fs : FileState) (url sender message reason : String) (hr mi code : Nat)
    (hload : load_config fs = Except.ok (Json.str url))
    (hpre : py_startswith url WEBHOOK_PREFIX = true)
    (h2a : 200 ≤ code) (h2b : code < 300) (hhr : hr < 24) (hmi : mi < 60) :
    forwarder fs sender message hr mi (PostOutcome.response code reason) =
      ⟨Except.ok [("status", "forwarded")],
       [⟨url, [("content",
          pad2 hr ++ ":" ++ pad2 mi ++ " [**" ++ sender ++ "**]: `" ++ message ++ "`")]⟩],
       fs⟩ ∧
    (pad2 hr).length = 2 ∧ (pad2 mi).length = 2 := by
  have hpad : ∀ n, n < 100 → (pad2 n).length = 2 := by decide
  refine ⟨?_, hpad hr (by omega), hpad mi (by omega)⟩
  have hc : ¬ (400 ≤ code ∧ code < 600) := by omega
  unfold forwarder
  rw [hload]
  simp [hpre, hc, strftime_HM]

/-- Witness for C1 at the spec's scenario (Alice/Hello at 14:07). -/
theorem forwarder_success_format_witness :
    forwarder (save_config "https://discord.com/api/webhooks/123/abc") "Alice" "Hello" 14 7
        (PostOutcome.response 204 "No Content") =
      ⟨Except.ok [("status", "forwarded")],
       [⟨"https://discord.com/api/webhooks/123/abc",
         [("content",
            pad2 14 ++ ":" ++ pad2 7 ++ " [**" ++ "Alice" ++ "**]: `" ++ "Hello" ++ "`")]⟩],
       save_config "https://discord.com/api/webhooks/123/abc"⟩ ∧
    (pad2 14).length = 2 ∧ (pad2 7).length = 2 :=
  forwarder_success_format (save_config "https://discord.com/api/webhooks/123/abc")
    "https://discord.com/api/webhooks/123/abc" "Alice" "Hello" "No Content" 14 7 204
    rfl (by decide) (by decide) (by decide) (by decide) (by decide)

/-- C10: the prompt strips surrounding whitespace from the entered line
    before the prefix check, and the value persisted and returned is the
    stripped string. -/
theorem prompt_strips_input (i : String) (rest : List String)
    (hpre : py_startswith (py_strip i) WEBHOOK_PREFIX = true) :
    prompt_for_webhook (i :: rest) = some (py_strip i, save_config (py_strip i)) := by
  unfold prompt_for_webhook
  simp [hpre]

/-- Witness for C10 at an input with surrounding whitespace. -/
theorem prompt_strips_input_witness :
    prompt_for_webhook ["  https://discord.com/api/webhooks/123/abc  "] =
      some (py_strip "  https://discord.com/api/webhooks/123/abc  ",
            save_config (py_strip "  https://discord.com/api/webhooks/123/abc  ")) :=
  prompt_strips_input "  https://discord.com/api/webhooks/123/abc  " [] (by decide)

/-- C6: the prompt loop returns only a URL passing the prefix check,
    persisted via `save_config` exactly as returned; an entry failing the
    check is rejected and the loop continues with the remaining input; an
    entry passing the check terminates the loop at once with that value. -/
theorem prompt_loop_invariant :
    (∀ (inputs : List String) (url : String) (fs : FileState),
        prompt_for_webhook inputs = some (url, fs) →
        py_startswith url WEBHOOK_PREFIX = true ∧ fs = save_config url) ∧
    (∀ (i : String) (rest : List String),
        py_startswith (py_strip i) WEBHOOK_PREFIX = false →
        prompt_for_webhook (i :: rest) = prompt_for_webhook rest) ∧
    (∀ (i : String) (rest : List String),
        py_startswith (py_strip i) WEBHOOK_PREFIX = true →
        prompt_for_webhook (i :: rest) = some (py_strip i, save_config (py_strip i))) := by
  refine ⟨?_, ?_, ?_⟩
  · intro inputs
    induction inputs with
    | nil => intro url fs h; simp [prompt_for_webhook] at h
    | cons i rest ih =>
      intro url fs h
      unfold prompt_for_webhook at h
      by_cases hp : py_startswith (py_strip i) WEBHOOK_PREFIX = true
      · simp only [hp, if_true, Option.some.injEq, Prod.mk.injEq] at h
        obtain ⟨h1, h2⟩ := h
        exact ⟨h1 ▸ hp, by rw [← h2, h1]⟩
      · simp only [hp, if_false] at h
        exact ih url fs h
  · intro i rest hp
    simp only [prompt_for_webhook]
    simp [hp]
  · intro i rest hp
    simp only [prompt_for_webhook]
    simp [hp]

/-- Witness for C6 at the spec's scenario: "notaurl" is rejected, the valid
    URL is accepted and persisted. -/
theorem prompt_loop_invariant_witness :
    prompt_for_webhook ["notaurl", "https://discord.com/api/webhooks/123/abc"] =
      some (py_strip "https://discord.com/api/webhooks/123/abc",
            save_config (py_strip "https://discord.com/api/webhooks/123/abc")) := by
  rw [prompt_loop_invariant.2.1 "notaurl" ["https://discord.com/api/webhooks/123/abc"] (by decide)]
  exact prompt_loop_invariant.2.2 "https://discord.com/api/webhooks/123/abc" [] (by decide)

/-- C4 counterexample: a 304 response is not 2xx, yet `raise_for_status`
    raises only for codes in 400..599, so the handler reports
    status "forwarded" rather than an error. -/
theorem non2xx_not_error_counterexample :
    forwarder (save_config "https://discord.com/api/webhooks/123/abc") "Alice" "Hello" 14 7
        (PostOutcome.response 304 "Not Modified") =
      ⟨Except.ok [("status", "forwarded")],
       [⟨"https://discord.com/api/webhooks/123/abc",
         [("content", "14:07 [**Alice**]: `Hello`")]⟩],
       save_config "https://discord.com/api/webhooks/123/abc"⟩ := rfl

/-- C4 (amended): with a validly configured URL, an outbound outcome that
    is an HTTP status in 400..599 or a transport error makes the handler
    return the status-"error" object whose detail is the stringified
    exception (non-empty for the status case) after exactly one POST
    attempt and no retry; a response status below 400 — including the
    non-2xx informational and redirect statuses — yields "forwarded". -/
theorem forwarder_failure_modes
    (fs : FileState) (url sender message reason : String) (hr mi code : Nat)
    (hload : load_config fs = Except.ok (Json.str url))
    (hpre : py_startswith url WEBHOOK_PREFIX = true) :
    (400 ≤ code → code < 600 →
      (forwarder fs sender message hr mi (PostOutcome.response code reason)).result =
        Except.ok [("status", "error"), ("detail", raise_for_status_msg code reason url)] ∧
      0 < (raise_for_status_msg code reason url).length ∧
      (forwarder fs sender message hr mi (PostOutcome.response code reason)).posts.length = 1) ∧
    (∀ msg,
      (forwarder fs sender message hr mi (PostOutcome.transportError msg)).result =
        Except.ok [("status", "error"), ("detail", msg)] ∧
      (forwarder fs sender message hr mi (PostOutcome.transportError msg)).posts.length = 1) ∧
    (code < 400 →
      (forwarder fs sender message hr mi (PostOutcome.response code reason)).result =
        Except.ok [("status", "forwarded")]) := by
  refine ⟨fun h4 h6 => ?_, fun msg => ?_, fun hlt => ?_⟩
  · have hc : 400 ≤ code ∧ code < 600 := ⟨h4, h6⟩
    have hmsg : 0 < (raise_for_status_msg code reason url).length := by
      have h10 : (" for url: " : String).length = 10 := rfl
      unfold raise_for_status_msg
      simp only [String.length_append]
      omega
    unfold forwarder
    rw [hload]
    simp [hpre, hc, hmsg]
  · unfold forwarder
    rw [hload]
    simp [hpre]
  · have hc : ¬ (400 ≤ code ∧ code < 600) := by omega
    unfold forwarder
    rw [hload]
    simp [hpre, hc]

/-- Witness for C4's amended claim at a concrete 404 response. -/
theorem forwarder_failure_modes_witness :
    (forwarder (save_config "https://discord.com/api/webhooks/123/abc") "Alice" "Hello" 14 7
        (PostOutcome.response 404 "Not Found")).result =
      Except.ok [("status", "error"),
        ("detail", raise_for_status_msg 404 "Not Found" "https://discord.com/api/webhooks/123/abc")] ∧
    0 < (raise_for_status_msg 404 "Not Found" "https://discord.com/api/webhooks/123/abc").length ∧
    (forwarder (save_config "https://discord.com/api/webhooks/123/abc") "Alice" "Hello" 14 7
        (PostOutcome.response 404 "Not Found")).posts.length = 1 :=
  (forwarder_failure_modes (save_config "https://discord.com/api/webhooks/123/abc")
      "https://discord.com/api/webhooks/123/abc" "Alice" "Hello" "Not Found" 14 7 404
      rfl (by decide)).1 (by decide) (by decide)

/-- C8: handling a request never modifies the configuration file — the
    file state after the handler equals the file state before it, in every
    branch (not configured, delivery failure, success, or a propagated
    exception). -/
theorem forwarder_preserves_file (fs : FileState) (sender message : String)
    (hr mi : Nat) (net : PostOutcome) :
    (forwarder fs sender message hr mi net).fileAfter = fs := by
  unfold forwarder
  split <;> try rfl
  split <;> try rfl
  split <;> try rfl
  split <;> rfl

/-- C9: whenever the handler returns a value rather than propagating an
    exception, that value is either exactly the one-key object
    status "forwarded", or exactly the two-key object status "error" with
    a detail string — so a detail key is present iff the status is
    "error". -/
theorem forwarder_result_shape
    (fs : FileState) (sender message : String) (hr mi : Nat) (net : PostOutcome)
    (d : List (String × String))
    (h : (forwarder fs sender message hr mi net).result = Except.ok d) :
    d = [("status", "forwarded")] ∨ ∃ x, d = [("status", "error"), ("detail", x)] := by
  unfold forwarder at h
  revert h
  split
  · intro h
    simp at h
  · split
    · intro h
      simp only [Except.ok.injEq] at h
      right
      exact ⟨_, h.symm⟩
    · split
      · split
        · intro h
          simp only [Except.ok.injEq] at h
          right
          exact ⟨_, h.symm⟩
        · intro h
          simp only [Except.ok.injEq] at h
          left
          exact h.symm
      · intro h
        simp only [Except.ok.injEq] at h
        right
        exact ⟨_, h.symm⟩
  · intro h
    simp at h

/-- Witness for C9 at a concrete request whose result is the error shape. -/
theorem forwarder_result_shape_witness :
    ([("status", "error"), ("detail", "Discord webhook not configured correctly.")]
        : List (String × String)) = [("status", "forwarded")] ∨
    ∃ x, ([("status", "error"), ("detail", "Discord webhook not configured correctly.")]
        : List (String × String)) = [("status", "error"), ("detail", x)] :=
  forwarder_result_shape FileState.absent "Alice" "Hello" 14 7
    (PostOutcome.response 200 "OK") _ rfl

end ChatForwarder
